import Mathlib

/-!
Shallow embedding of the repository's two icon-generation scripts
(`scripts/generate-icons.py` and `scripts/simple-icon-gen.py`).

Raster images are modelled as a structure holding dimensions and a total
pixel function.  The imaging library's primitives (allocation, paste with
clipping and optional mask, alpha replacement, Gaussian blur, shape
drawing) are modelled explicitly.  The procedural renderer
`create_volcanic_icon` is modelled by the list of drawing commands it
issues, executed sequentially by a step relation, so that both the error
behaviour (an invalid bounding box stops execution) and determinism can be
stated.  A reference-store model is used for the frame conditions of the
post-processing filters.
-/

namespace CodeFurnace

/-- One RGBA pixel.  The scripts work exclusively on mode-RGBA images;
single-channel (mode L) masks are modelled as `Nat`-valued functions. -/
structure RGBA where
  r : Nat
  g : Nat
  b : Nat
  a : Nat
deriving DecidableEq

/-- A raster buffer: dimensions plus a total pixel function.  Only the
values at coordinates below the dimensions are meaningful; the library
operations below never read outside those bounds. -/
@[ext]
structure Image where
  width : Nat
  height : Nat
  px : Nat → Nat → RGBA

/-- Models `PIL.Image.new(mode, (w, h), color)`: a freshly allocated
constant-colored buffer. -/
def newImage (w h : Nat) (c : RGBA) : Image :=
  ⟨w, h, fun _ _ => c⟩

instance : Inhabited Image := ⟨newImage 0 0 ⟨0, 0, 0, 0⟩⟩

/-- Alpha-blend of a destination and source pixel under a mask value
`a ∈ [0, 255]`, as the library's masked `paste` does per channel. -/
def blendPx (d s : RGBA) (a : Nat) : RGBA :=
  ⟨(d.r * (255 - a) + s.r * a) / 255,
   (d.g * (255 - a) + s.g * a) / 255,
   (d.b * (255 - a) + s.b * a) / 255,
   (d.a * (255 - a) + s.a * a) / 255⟩

/-- Models `dst.paste(src, (ox, oy), mask?)`: copies (or, under a mask,
blends) the source into the destination at the given offset, clipped to
both images' bounds; the destination keeps its dimensions. -/
def paste (dst src : Image) (ox oy : Int) (m : Option (Nat → Nat → Nat)) : Image :=
  ⟨dst.width, dst.height, fun x y =>
    if x < dst.width ∧ y < dst.height ∧ ox ≤ (x : Int) ∧ (x : Int) < ox + src.width
        ∧ oy ≤ (y : Int) ∧ (y : Int) < oy + src.height then
      let sx := ((x : Int) - ox).toNat
      let sy := ((y : Int) - oy).toNat
      match m with
      | none => src.px sx sy
      | some mf => blendPx (dst.px x y) (src.px sx sy) (mf sx sy)
    else dst.px x y⟩

/-- Models `img.putalpha(mask)`: replaces the alpha band with the mask,
keeping the color bands; any previous alpha is overwritten. -/
def putalpha (img : Image) (m : Nat → Nat → Nat) : Image :=
  ⟨img.width, img.height, fun x y =>
    ⟨(img.px x y).r, (img.px x y).g, (img.px x y).b, m x y⟩⟩

/-- The alpha band of an image, used when an RGBA image is passed as its
own paste mask. -/
def alphaOf (img : Image) : Nat → Nat → Nat :=
  fun x y => (img.px x y).a

/-- Models `img.filter(ImageFilter.GaussianBlur(radius))`: a new image of
identical dimensions whose pixels are a neighborhood average.  The external
library's exact floating-point kernel is implementation-defined; it is
modelled by an integer five-point average at distance `radius` (clamped at
the edges), which is all the claims need: the filter allocates a fresh
buffer of the same dimensions and is a deterministic function of its
input. -/
def gaussianBlur (radius : Nat) (img : Image) : Image :=
  ⟨img.width, img.height, fun x y =>
    let p1 := img.px x y
    let p2 := img.px (x - radius) y
    let p3 := img.px (min (img.width - 1) (x + radius)) y
    let p4 := img.px x (y - radius)
    let p5 := img.px x (min (img.height - 1) (y + radius))
    ⟨(p1.r + p2.r + p3.r + p4.r + p5.r) / 5,
     (p1.g + p2.g + p3.g + p4.g + p5.g) / 5,
     (p1.b + p2.b + p3.b + p4.b + p5.b) / 5,
     (p1.a + p2.a + p3.a + p4.a + p5.a) / 5⟩⟩

/-- Whether `(x, y)` is within `radius` of the rounded-rectangle corner
disc nearest to it (corner centers at distance `radius` from the sides of
the box `[0, size] × [0, size]`). -/
def cornerNear (size radius x y : Nat) : Bool :=
  let cx : Int := if x < radius then (radius : Int) else (size : Int) - radius
  let cy : Int := if y < radius then (radius : Int) else (size : Int) - radius
  decide (((x : Int) - cx) ^ 2 + ((y : Int) - cy) ^ 2 ≤ (radius : Int) ^ 2)

/-- Membership in the rounded rectangle over the box `[0, size] × [0, size]`
with corner radius `radius`: the two axis-aligned bands plus the corner
discs.  Models the region filled by `ImageDraw.rounded_rectangle`. -/
def inRoundedRect (size radius x y : Nat) : Bool :=
  decide ((radius ≤ x ∧ x + radius ≤ size) ∨ (radius ≤ y ∧ y + radius ≤ size)) ||
    cornerNear size radius x y

/-- The single-channel mask built by both scripts' `create_rounded_icon`:
a mode-L image of side `size`, `255` inside the rounded rectangle drawn
over the full canvas, `0` elsewhere. -/
def roundedMask (size radius : Nat) : Nat → Nat → Nat := fun x y =>
  if x < size ∧ y < size ∧ inRoundedRect size radius x y = true then 255 else 0

/-- Embeds `create_rounded_icon(image, radius_percent=20)` (identical in
both scripts): side length is taken from the image's width alone, a
rounded-rectangle mask of that side is built, the image is pasted at the
origin onto a fresh transparent square, and the mask is written as the
result's alpha band. -/
def create_rounded_icon (image : Image) (radius_percent : Nat := 20) : Image :=
  let size := image.width
  let radius := size * radius_percent / 100
  let result := paste (newImage size size ⟨0, 0, 0, 0⟩) image 0 0 none
  putalpha result (roundedMask size radius)

/-- Embeds `add_shadow_effect(image, shadow_color=(0,0,0,60), offset=(2,2),
blur_radius=4)` from `generate-icons.py`.  The function allocates an
enlarged `(w + 2r) × (h + 2r)` canvas named `shadow`, but never draws on it,
composites it, or returns it; the returned `result` canvas is created at
the input's own size. -/
def add_shadow_effect (image : Image) (shadow_color : RGBA := ⟨0, 0, 0, 60⟩)
    (offset : Int × Int := (2, 2)) (blur_radius : Nat := 4) : Image :=
  let _shadow_canvas := newImage (image.width + blur_radius * 2)
    (image.height + blur_radius * 2) ⟨0, 0, 0, 0⟩
  let shadow_layer := gaussianBlur blur_radius
    (newImage image.width image.height shadow_color)
  let result := paste (newImage image.width image.height ⟨0, 0, 0, 0⟩)
    shadow_layer offset.1 offset.2 (some (alphaOf shadow_layer))
  let result2 := paste result image 0 0 (some (alphaOf image))
  result2

/-- Drawing commands issued by `create_volcanic_icon` in
`simple-icon-gen.py` against an `ImageDraw` object: ellipses and
rectangles given by an inclusive bounding box with optional fill and
outline, filled-and-outlined polygons, and width-`w` line segments. -/
inductive Cmd where
  | ellipse (x0 y0 x1 y1 : Int) (fill : Option RGBA) (outl : Option RGBA) (w : Nat)
  | rect (x0 y0 x1 y1 : Int) (fill : Option RGBA) (outl : Option RGBA) (w : Nat)
  | polygon (pts : List (Int × Int)) (fill : Option RGBA) (outl : Option RGBA) (w : Nat)
  | line (x0 y0 x1 y1 : Int) (c : RGBA) (w : Nat)
deriving DecidableEq

/-- Validity of a command for the drawing library: `ellipse` and
`rectangle` raise `ValueError` when `x1 < x0` or `y1 < y0`; lines and
polygons accept any coordinates. -/
def cmdValid : Cmd → Bool
  | .ellipse x0 y0 x1 y1 _ _ _ => decide (x0 ≤ x1 ∧ y0 ≤ y1)
  | .rect x0 y0 x1 y1 _ _ _ => decide (x0 ≤ x1 ∧ y0 ≤ y1)
  | .polygon _ _ _ _ => true
  | .line _ _ _ _ _ _ => true

/-- A command is non-degenerate when its drawn extent is positive: a
strictly positive bounding box for ellipses and rectangles, a strictly
positive stroke width for lines and polygons.  A zero-radius ellipse or
zero-width rectangle is degenerate (but still valid for the library). -/
def cmdNondegenerate : Cmd → Bool
  | .ellipse x0 y0 x1 y1 _ _ _ => decide (x0 < x1 ∧ y0 < y1)
  | .rect x0 y0 x1 y1 _ _ _ => decide (x0 < x1 ∧ y0 < y1)
  | .polygon _ _ _ w => decide (0 < w)
  | .line _ _ _ _ _ w => decide (0 < w)

/-- Membership of the point `(x, y)` in the solid ellipse with inclusive
bounding box `[x0, x1] × [y0, y1]` (cross-multiplied to stay in `Int`). -/
def inEllipse (x0 y0 x1 y1 x y : Int) : Bool :=
  decide ((2 * x - (x0 + x1)) ^ 2 * (y1 - y0) ^ 2
      + (2 * y - (y0 + y1)) ^ 2 * (x1 - x0) ^ 2
    ≤ (x1 - x0) ^ 2 * (y1 - y0) ^ 2)

/-- Membership of `(x, y)` in the inclusive axis-aligned box. -/
def inBox (x0 y0 x1 y1 x y : Int) : Bool :=
  decide (x0 ≤ x ∧ x ≤ x1 ∧ y0 ≤ y ∧ y ≤ y1)

/-- Whether `(x, y)` lies within stroke width `w` of the segment from
`(px1, py1)` to `(qx1, qy1)` (squared distances, cross-multiplied). -/
def nearSegment (px1 py1 qx1 qy1 x y : Int) (w : Nat) : Bool :=
  let dx := qx1 - px1
  let dy := qy1 - py1
  let vx := x - px1
  let vy := y - py1
  let den := dx * dx + dy * dy
  let tnum := vx * dx + vy * dy
  if den = 0 then decide (4 * (vx * vx + vy * vy) ≤ (w : Int) * w)
  else if tnum ≤ 0 then decide (4 * (vx * vx + vy * vy) ≤ (w : Int) * w)
  else if den ≤ tnum then
    decide (4 * ((x - qx1) ^ 2 + (y - qy1) ^ 2) ≤ (w : Int) * w)
  else
    decide (4 * ((vx * vx + vy * vy) * den - tnum * tnum) ≤ (w : Int) * w * den)

/-- The cyclic edge list of a polygon. -/
def polyEdges (pts : List (Int × Int)) : List ((Int × Int) × (Int × Int)) :=
  match pts with
  | [] => []
  | p :: _ => pts.zip (pts.tail ++ [p])

/-- Crossing test of a leftward horizontal ray from `(x, y)` against one
polygon edge (division-free even-odd rasterization rule). -/
def edgeCross (x y : Int) (e : (Int × Int) × (Int × Int)) : Bool :=
  let xi := e.1.1
  let yi := e.1.2
  let xj := e.2.1
  let yj := e.2.2
  if yi ≤ y ∧ y < yj then decide ((x - xi) * (yj - yi) < (y - yi) * (xj - xi))
  else if yj ≤ y ∧ y < yi then decide ((x - xi) * (yj - yi) > (y - yi) * (xj - xi))
  else false

/-- Even-odd membership of `(x, y)` in the polygon. -/
def inPolygon (pts : List (Int × Int)) (x y : Int) : Bool :=
  (polyEdges pts).countP (edgeCross x y) % 2 = 1

/-- Whether `(x, y)` is on the polygon's outline stroke. -/
def onPolyOutline (pts : List (Int × Int)) (x y : Int) (w : Nat) : Bool :=
  (polyEdges pts).any (fun e => nearSegment e.1.1 e.1.2 e.2.1 e.2.2 x y w)

/-- Applies one valid drawing command to the image in place (the drawing
library overwrites raw pixel values; it does not alpha-composite).  The
image's dimensions never change. -/
def applyCmd (img : Image) (c : Cmd) : Image :=
  match c with
  | .ellipse x0 y0 x1 y1 fill outl w =>
    ⟨img.width, img.height, fun x y =>
      if inEllipse x0 y0 x1 y1 (x : Int) (y : Int) then
        if outl.isSome &&
            !inEllipse (x0 + w) (y0 + w) (x1 - w) (y1 - w) (x : Int) (y : Int) then
          outl.getD ⟨0, 0, 0, 0⟩
        else
          match fill with
          | some cl => cl
          | none => img.px x y
      else img.px x y⟩
  | .rect x0 y0 x1 y1 fill outl w =>
    ⟨img.width, img.height, fun x y =>
      if inBox x0 y0 x1 y1 (x : Int) (y : Int) then
        if outl.isSome &&
            !inBox (x0 + w) (y0 + w) (x1 - w) (y1 - w) (x : Int) (y : Int) then
          outl.getD ⟨0, 0, 0, 0⟩
        else
          match fill with
          | some cl => cl
          | none => img.px x y
      else img.px x y⟩
  | .polygon pts fill outl w =>
    ⟨img.width, img.height, fun x y =>
      if outl.isSome && onPolyOutline pts (x : Int) (y : Int) w then
        outl.getD ⟨0, 0, 0, 0⟩
      else if inPolygon pts (x : Int) (y : Int) then
        match fill with
        | some cl => cl
        | none => img.px x y
      else img.px x y⟩
  | .line x0 y0 x1 y1 cl w =>
    ⟨img.width, img.height, fun x y =>
      if nearSegment x0 y0 x1 y1 (x : Int) (y : Int) w then cl else img.px x y⟩

/-- Scaled coordinate `int(k * s)` where `s = size / 512.0`: the product
`k * size / 512.0` is exact in double precision for all realistic sizes
(the denominator is a power of two), so `int` truncation coincides with
natural floor division. -/
def sc (k size : Nat) : Nat :=
  k * size / 512

def obsidian_dark : RGBA := ⟨13, 13, 13, 255⟩
def obsidian_medium : RGBA := ⟨42, 42, 42, 255⟩
def lava_primary : RGBA := ⟨255, 69, 0, 255⟩
def lava_secondary : RGBA := ⟨255, 140, 0, 255⟩
def lava_gold : RGBA := ⟨255, 215, 0, 255⟩
def ember_color : RGBA := ⟨255, 112, 67, 255⟩

/-- Python's `range(start, stop, step)` for a positive step. -/
def rangeStep (start stop step : Nat) : List Nat :=
  (List.range ((stop - start + step - 1) / step)).map (fun i => start + i * step)

/-- Integer approximation of `1000 * sin(t / 1000)` by a triangle wave of
the right period and amplitude.  The source computes crack offsets with
`math.sin`, a floating-point transcendental that has no exact shallow
embedding; no claim depends on the offset's value, only on its being a
deterministic total function, which this is. -/
def sinMilli (t : Int) : Int :=
  let p := t.emod 6283
  if p ≤ 1571 then p * 1000 / 1571
  else if p ≤ 4712 then (3142 - p) * 1000 / 1571
  else (p - 6283) * 1000 / 1571

/-- Models `int(10 * s * math.sin((x - 210 * s) * 0.1))` for the wavy
crack lines (`s = size / 512.0`), in thousandths. -/
def crackOffset (size x : Nat) : Int :=
  (10 * (size : Int)) * sinMilli (((x : Int) - (210 * (size : Int)) / 512) * 100)
    / (512 * 1000)

/-- Background obsidian circle. -/
def bgCmds (size : Nat) : List Cmd :=
  let center : Int := (size / 2 : Nat)
  let bg_radius : Int := (sc 240 size : Nat)
  [.ellipse (center - bg_radius) (center - bg_radius)
    (center + bg_radius) (center + bg_radius) (some obsidian_dark) none 1]

/-- Outer lava ring: `ring_width = max(1, int(3*s))` concentric one-pixel
outlines around the center, the i-th inset by i. -/
def ringCmds (size : Nat) : List Cmd :=
  (List.range (max 1 (sc 3 size))).map (fun (i : Nat) =>
    .ellipse (((size / 2 : Nat) : Int) - ((sc 220 size : Nat) : Int) + (i : Int))
      (((size / 2 : Nat) : Int) - ((sc 220 size : Nat) : Int) + (i : Int))
      (((size / 2 : Nat) : Int) + ((sc 220 size : Nat) : Int) - (i : Int))
      (((size / 2 : Nat) : Int) + ((sc 220 size : Nat) : Int) - (i : Int))
      none (some lava_primary) 1)

/-- Forge anvil base rectangle. -/
def anvilCmds (size : Nat) : List Cmd :=
  [.rect (sc 160 size : Nat) (sc 332 size : Nat) (sc 352 size : Nat)
    (sc 380 size : Nat) (some obsidian_dark) (some lava_primary)
    (max 1 (sc 2 size))]

/-- Main furnace body polygon. -/
def furnaceCmds (size : Nat) : List Cmd :=
  [.polygon
    [((sc 200 size : Nat), (sc 320 size : Nat)),
     ((sc 312 size : Nat), (sc 320 size : Nat)),
     ((sc 320 size : Nat), (sc 180 size : Nat)),
     ((sc 290 size : Nat), (sc 120 size : Nat)),
     ((sc 256 size : Nat), (sc 100 size : Nat)),
     ((sc 222 size : Nat), (sc 120 size : Nat)),
     ((sc 192 size : Nat), (sc 180 size : Nat))]
    (some obsidian_medium) (some lava_secondary) (max 1 (sc 3 size))]

/-- Lava-core glow: five concentric ellipses of shrinking radii and
alpha, drawn only when both computed radii and the alpha are positive. -/
def gradCmds (size : Nat) : List Cmd :=
  let cx : Int := (sc 256 size : Nat)
  let cy : Int := (sc 200 size : Nat)
  (List.range 5).filterMap (fun i =>
    let alpha : Nat := 255 - i * 40
    let rw : Int := ((sc 45 size : Nat) : Int) - (i : Int) * ((sc 5 size : Nat) : Int)
    let rh : Int := ((sc 60 size : Nat) : Int) - (i : Int) * ((sc 8 size : Nat) : Int)
    if 0 < rw ∧ 0 < rh ∧ 0 < alpha then
      let base := if i < 2 then lava_gold
        else if i < 4 then lava_secondary else lava_primary
      some (.ellipse (cx - rw) (cy - rh) (cx + rw) (cy + rh)
        (some ⟨base.r, base.g, base.b, alpha⟩) none 1)
    else none)

/-- Segments connecting consecutive sample points of one crack line
(the source's index loop over the flat coordinate list). -/
def segmentsOf (pts : List (Int × Int)) (cl : RGBA) (w : Nat) : List Cmd :=
  (pts.zip pts.tail).map (fun pq => .line pq.1.1 pq.1.2 pq.2.1 pq.2.2 cl w)

/-- Sample points of one wavy crack: the horizontal positions produced by
`range(int(210*s), int(302*s), max(1, int(10*s)))`, each paired with the
crack's baseline plus the sine offset. -/
def crackPoints (size ypos : Nat) : List (Int × Int) :=
  (rangeStep (sc 210 size) (sc 302 size) (max 1 (sc 10 size))).map
    (fun x => (Int.ofNat x, (ypos : Int) + crackOffset size x))

/-- One wavy molten crack: drawn only when at least two sample points
exist (the source's `len(points) >= 4` check on the flat list). -/
def crackLine (size ypos : Nat) (cl : RGBA) (w : Nat) : List Cmd :=
  if 2 ≤ (crackPoints size ypos).length then
    segmentsOf (crackPoints size ypos) cl w
  else []

/-- The three molten cracks. -/
def crackCmds (size : Nat) : List Cmd :=
  crackLine size (sc 160 size) lava_gold (max 1 (sc 3 size)) ++
    crackLine size (sc 200 size) lava_secondary (max 1 (sc 4 size)) ++
    crackLine size (sc 240 size) lava_primary (max 1 (sc 3 size))

/-- Furnace mouth and its inner glow. -/
def mouthCmds (size : Nat) : List Cmd :=
  let mx : Int := (sc 256 size : Nat)
  let my : Int := (sc 140 size : Nat)
  let mw : Int := (sc 25 size : Nat)
  let mh : Int := (sc 15 size : Nat)
  let iw : Int := (sc 20 size : Nat)
  let ih : Int := (sc 10 size : Nat)
  [.ellipse (mx - mw) (my - mh) (mx + mw) (my + mh)
    (some ⟨0, 0, 0, 255⟩) (some lava_primary) (max 1 (sc 2 size)),
   .ellipse (mx - iw) (my - ih) (mx + iw) (my + ih)
    (some ⟨lava_secondary.r, lava_secondary.g, lava_secondary.b, 150⟩) none 1]

/-- Spark/ember dots, drawn only when the scaled radius is positive
(`2.5 * s` and `1.5 * s` truncate to `5·size/1024` and `3·size/1024`). -/
def emberCmds (size : Nat) : List Cmd :=
  ([((sc 200 size, sc 120 size, sc 3 size), lava_gold),
    ((sc 320 size, sc 100 size, sc 2 size), lava_secondary),
    ((sc 280 size, sc 80 size, 5 * size / 1024), lava_gold),
    ((sc 180 size, sc 90 size, sc 2 size), lava_primary),
    ((sc 340 size, sc 130 size, 3 * size / 1024), lava_secondary)]).filterMap
    (fun t =>
      let x : Int := t.1.1
      let y : Int := t.1.2.1
      let radius : Int := t.1.2.2
      if 0 < radius then
        some (.ellipse (x - radius) (y - radius) (x + radius) (y + radius)
          (some t.2) none 1)
      else none)

/-- Furnace cooling-slit rectangles. -/
def ventCmds (size : Nat) : List Cmd :=
  let vent_y := sc 300 size
  let vent_height := max 1 (sc 3 size)
  let vent_width := sc 20 size
  ([sc 200 size, sc 230 size, sc 260 size, sc 290 size]).map (fun x =>
    .rect (x : Nat) (vent_y : Nat) ((x + vent_width : Nat) : Int)
      ((vent_y + vent_height : Nat) : Int)
      (some ⟨lava_primary.r, lava_primary.g, lava_primary.b, 150⟩) none 1)

/-- Central bright core: two ellipses centered horizontally at `size // 2`
and vertically at the lava core's center. -/
def coreCmds (size : Nat) : List Cmd :=
  let center : Int := (size / 2 : Nat)
  let cy : Int := (sc 200 size : Nat)
  let core_radius : Int := (max 1 (sc 12 size) : Nat)
  let bright_radius : Int := (max 1 (sc 6 size) : Nat)
  [.ellipse (center - core_radius) (cy - core_radius)
    (center + core_radius) (cy + core_radius) (some lava_gold) none 1,
   .ellipse (center - bright_radius) (cy - bright_radius)
    (center + bright_radius) (cy + bright_radius)
    (some ⟨255, 255, 255, 200⟩) none 1]

/-- The full sequence of drawing commands `create_volcanic_icon(size)`
issues, in source order. -/
def volcanicTrace (size : Nat) : List Cmd :=
  bgCmds size ++ ringCmds size ++ anvilCmds size ++ furnaceCmds size ++
    gradCmds size ++ crackCmds size ++ mouthCmds size ++ emberCmds size ++
    ventCmds size ++ coreCmds size

/-- Embeds `create_volcanic_icon(size)`: a fresh transparent RGBA canvas of
side `size` with the full command trace drawn onto it. -/
def create_volcanic_icon (size : Nat) : Image :=
  (volcanicTrace size).foldl applyCmd (newImage size size ⟨0, 0, 0, 0⟩)

/-- Sequential execution of drawing commands: each command must be valid
for the drawing library (an invalid bounding box raises, so no rule
applies and no final image is derivable). -/
inductive ExecCmds : Image → List Cmd → Image → Prop where
  | nil (img : Image) : ExecCmds img [] img
  | cons (img : Image) (c : Cmd) (cs : List Cmd) (out : Image) :
      cmdValid c = true → ExecCmds (applyCmd img c) cs out →
      ExecCmds img (c :: cs) out

/-- A complete, error-free run of `create_volcanic_icon(size)` producing
the image `img`. -/
def RendersIcon (size : Nat) (img : Image) : Prop :=
  ExecCmds (newImage size size ⟨0, 0, 0, 0⟩) (volcanicTrace size) img

/-- Models the external SVG rasterizer call
`cairosvg.svg2png(url=..., output_width=size, output_height=size,
background_color='transparent')` followed by `.convert('RGBA')`: per the
rasterizer's contract (spec §4.1) it produces a buffer of exactly the
requested square resolution with a transparent background; the painted
content is irrelevant to every claim and is modelled as transparent. -/
def svg2png (size : Nat) : Image :=
  newImage size size ⟨0, 0, 0, 0⟩

/-- Embeds the in-memory part of `generate_png_from_svg(svg_path, size,
output_path, rounded, shadow)`: rasterize at the requested size, then
optionally round corners, then optionally add the shadow effect; the
result is what gets saved to the output file. -/
def generate_png_from_svg (size : Nat) (rounded shadow : Bool) : Image :=
  let image := svg2png size
  let image := if rounded then create_rounded_icon image else image
  let image := if shadow then add_shadow_effect image else image
  image

/-- One entry of a static icon-configuration table: target size, output
filename, and the post-processing flags. -/
structure IconConfig where
  size : Nat
  filename : String
  rounded : Bool
  shadow : Bool
deriving DecidableEq

/-- The `sizes` table of `generate-icons.py`'s `main`. -/
def coreConfigs : List IconConfig :=
  [⟨32, "32x32.png", false, false⟩,
   ⟨128, "128x128.png", true, true⟩,
   ⟨256, "128x128@2x.png", true, true⟩,
   ⟨512, "icon.png", true, true⟩]

/-- The `store_sizes` table of `generate-icons.py`'s `main`; each entry is
generated with `rounded=True` and the default `shadow=False`. -/
def storeConfigs : List IconConfig :=
  [⟨30, "Square30x30Logo.png", true, false⟩,
   ⟨44, "Square44x44Logo.png", true, false⟩,
   ⟨71, "Square71x71Logo.png", true, false⟩,
   ⟨89, "Square89x89Logo.png", true, false⟩,
   ⟨107, "Square107x107Logo.png", true, false⟩,
   ⟨142, "Square142x142Logo.png", true, false⟩,
   ⟨150, "Square150x150Logo.png", true, false⟩,
   ⟨284, "Square284x284Logo.png", true, false⟩,
   ⟨310, "Square310x310Logo.png", true, false⟩,
   ⟨50, "StoreLogo.png", true, false⟩]

/-- All PNG entries of the vector-source pipeline. -/
def vectorConfigs : List IconConfig :=
  coreConfigs ++ storeConfigs

/-- The `icon_configs` table of `simple-icon-gen.py`'s `main` (the
descriptive label column is dropped; no shadow step exists there). -/
def simpleConfigs : List IconConfig :=
  [⟨32, "32x32.png", false, false⟩,
   ⟨128, "128x128.png", true, false⟩,
   ⟨256, "128x128@2x.png", true, false⟩,
   ⟨512, "icon.png", true, false⟩,
   ⟨30, "Square30x30Logo.png", true, false⟩,
   ⟨44, "Square44x44Logo.png", true, false⟩,
   ⟨71, "Square71x71Logo.png", true, false⟩,
   ⟨89, "Square89x89Logo.png", true, false⟩,
   ⟨107, "Square107x107Logo.png", true, false⟩,
   ⟨142, "Square142x142Logo.png", true, false⟩,
   ⟨150, "Square150x150Logo.png", true, false⟩,
   ⟨284, "Square284x284Logo.png", true, false⟩,
   ⟨310, "Square310x310Logo.png", true, false⟩,
   ⟨50, "StoreLogo.png", true, false⟩]

/-- Post-processing applied by `simple-icon-gen.py`'s loop body to the
rendered volcanic icon before saving. -/
def simplePost (e : IconConfig) (icon : Image) : Image :=
  if e.rounded then create_rounded_icon icon else icon

/-- The size list `generate_ico` requests for the multi-resolution ICO. -/
def icoRequestedSizes : List Nat :=
  [16, 24, 32, 48, 64, 128, 256]

/-- Models the external image library's ICO encoder invoked by
`im.save(path, format='ICO', sizes=...)`: the documented behaviour is that
any requested size larger than the image being saved is ignored, and the
remaining requested sizes become the file's frames. -/
def icoSaveFrames (imW imH : Nat) (req : List (Nat × Nat)) : List (Nat × Nat) :=
  req.filter (fun p => p.1 ≤ imW ∧ p.2 ≤ imH)

/-- External failure points of `generate_ico`: opening the base PNG, and
the resize/save work (any exception is caught by the wrapper). -/
structure IcoEnv where
  openFails : Bool
  saveFails : Bool
deriving DecidableEq

/-- Observable outcome of `generate_ico`. -/
structure IcoResult where
  raised : Bool
  warned : Bool
  written : Bool
  frames : List (Nat × Nat)
deriving DecidableEq

/-- Embeds `generate_ico(png_512_path, ico_path)`: opens the base image,
resizes it to each size of `icoRequestedSizes` (producing `images`, whose
head is the 16 × 16 resize), then saves `images[0]` with the full
requested size list; the whole body is wrapped in
`try ... except Exception`, which prints a warning and returns. -/
def generate_ico (_baseW _baseH : Nat) (env : IcoEnv) : IcoResult :=
  if env.openFails then ⟨false, true, false, []⟩
  else if env.saveFails then ⟨false, true, false, []⟩
  else
    let images := icoRequestedSizes.map (fun s => (s, s))
    let saved := images.headD (0, 0)
    ⟨false, false, true, icoSaveFrames saved.1 saved.2 images⟩

/-- External failure points of `generate_icns`, in the order the body can
hit them: creating the iconset directory, opening the base PNG, the
resize/save loop, the `subprocess.run` call itself raising (e.g. the
`iconutil` binary being absent), and finally the tool's exit code. -/
structure IcnsEnv where
  mkdirFails : Bool
  openFails : Bool
  saveFails : Bool
  runRaises : Bool
  returncode : Int
deriving DecidableEq

/-- Observable outcome of `generate_icns`. -/
structure IcnsResult where
  raised : Bool
  warned : Bool
  stagingCreated : Bool
  stagingDeleted : Bool
  toolSucceeded : Bool
deriving DecidableEq

/-- Embeds `generate_icns(png_512_path, icns_path)`: the body creates the
`.iconset` staging directory, writes the ten resized PNGs into it, runs
`iconutil`, and on exit code 0 prints success and removes the staging
directory with `shutil.rmtree` (modelled as removing it); on a non-zero
exit code it prints a warning and leaves the directory.  The whole body is
wrapped in `try ... except Exception`, which prints a warning and
returns. -/
def generate_icns (env : IcnsEnv) : IcnsResult :=
  if env.mkdirFails then ⟨false, true, false, false, false⟩
  else if env.openFails then ⟨false, true, true, false, false⟩
  else if env.saveFails then ⟨false, true, true, false, false⟩
  else if env.runRaises then ⟨false, true, true, false, false⟩
  else if env.returncode = 0 then ⟨false, false, true, true, true⟩
  else ⟨false, true, true, false, false⟩

/-- Environment of one run of `generate-icons.py`'s `main`: whether the
dependency probe succeeds, whether the SVG source file exists, and the
external conditions of the two bundle packagers. -/
structure VecEnv where
  depsOk : Bool
  svgExists : Bool
  icns : IcnsEnv
  ico : IcoEnv

/-- Observable outcome of one run of `generate-icons.py`'s `main`. -/
structure RunResult where
  exitCode : Nat
  pngsWritten : List String
  icnsRes : Option IcnsResult
  icoRes : Option IcoResult

/-- Embeds `main()` of `generate-icons.py`: the dependency probe exits
with status 1 if the imports fail; the SVG existence check exits with
status 1 before any output is produced; otherwise every configured PNG is
generated and written, and then the two bundle packagers run (their
failures are internal to them), after which the script ends normally
(exit status 0).  The 512-pixel `icon.png` produced by the main loop is
the base for both packagers. -/
def vector_main (env : VecEnv) : RunResult :=
  if !env.depsOk then ⟨1, [], none, none⟩
  else if !env.svgExists then ⟨1, [], none, none⟩
  else
    ⟨0, vectorConfigs.map IconConfig.filename,
     some (generate_icns env.icns), some (generate_ico 512 512 env.ico)⟩

/-- A store of allocated raster buffers: a reference is an index, a fresh
allocation appends at the end.  Used to state frame conditions (which
buffers a call mutates). -/
abbrev Store := List Image

/-- Allocation (`Image.new`): returns the extended store and the fresh
reference. -/
def storeNew (σ : Store) (w h : Nat) (c : RGBA) : Store × Nat :=
  (σ ++ [newImage w h c], σ.length)

/-- Dereference. -/
def storeGet (σ : Store) (ref : Nat) : Image :=
  σ.getD ref default

/-- In-place `dst.paste(src, (ox, oy), mask?)` on the store. -/
def storePaste (σ : Store) (dst src : Nat) (ox oy : Int)
    (m : Option (Nat → Nat → Nat)) : Store :=
  σ.set dst (paste (storeGet σ dst) (storeGet σ src) ox oy m)

/-- In-place `dst.putalpha(mask)` on the store. -/
def storePutalpha (σ : Store) (dst : Nat) (m : Nat → Nat → Nat) : Store :=
  σ.set dst (putalpha (storeGet σ dst) m)

/-- `img.filter(...)` allocates and returns a fresh blurred copy. -/
def storeBlur (σ : Store) (radius : Nat) (src : Nat) : Store × Nat :=
  (σ ++ [gaussianBlur radius (storeGet σ src)], σ.length)

/-- Store-level embedding of `create_rounded_icon(image, radius_percent)`:
reads the side length from the argument, allocates the fresh `result`
square, pastes the argument into it, and overwrites the result's alpha
with the rounded-rectangle mask.  Returns the new store and the result's
reference. -/
def create_rounded_icon_st (σ : Store) (image : Nat)
    (radius_percent : Nat := 20) : Store × Nat :=
  let size := (storeGet σ image).width
  let radius := size * radius_percent / 100
  let a1 := storeNew σ size size ⟨0, 0, 0, 0⟩
  let σ2 := storePaste a1.1 a1.2 image 0 0 none
  let σ3 := storePutalpha σ2 a1.2 (roundedMask size radius)
  (σ3, a1.2)

/-- Store-level embedding of `add_shadow_effect(image, shadow_color,
offset, blur_radius)`: allocates the (unused) enlarged shadow canvas, the
flat-colored layer, its blurred copy, and the result canvas; then pastes
the blurred layer (masked by itself) and the argument image (masked by
itself) into the result.  Returns the new store and the result's
reference. -/
def add_shadow_effect_st (σ : Store) (image : Nat)
    (shadow_color : RGBA := ⟨0, 0, 0, 60⟩) (offset : Int × Int := (2, 2))
    (blur_radius : Nat := 4) : Store × Nat :=
  let w := (storeGet σ image).width
  let h := (storeGet σ image).height
  let a1 := storeNew σ (w + blur_radius * 2) (h + blur_radius * 2) ⟨0, 0, 0, 0⟩
  let a2 := storeNew a1.1 w h shadow_color
  let a3 := storeBlur a2.1 blur_radius a2.2
  let a4 := storeNew a3.1 w h ⟨0, 0, 0, 0⟩
  let σ5 := storePaste a4.1 a4.2 a3.2 offset.1 offset.2
    (some (alphaOf (storeGet a3.1 a3.2)))
  let σ6 := storePaste σ5 a4.2 image 0 0 (some (alphaOf (storeGet σ image)))
  (σ6, a4.2)

/-- The color bands `create_rounded_icon`'s origin-paste leaves at
`(x, y)`: the input's pixel where the input overlaps the `width × width`
result square, and the transparent-black fill where it does not (a
non-square input is thereby cropped at the bottom or padded with
transparent rows). -/
def croppedPx (img : Image) (x y : Nat) : RGBA :=
  if x < img.width ∧ y < img.width ∧ y < img.height then img.px x y
  else ⟨0, 0, 0, 0⟩

/-- A small concrete non-square (3 wide, 2 tall) image with distinct
pixels, used to instantiate universally quantified theorems. -/
def probeImg : Image :=
  ⟨3, 2, fun x y => ⟨x, y, x + y, 7⟩⟩

/-- C1 (amended): `add_shadow_effect` returns a canvas with exactly the
input's dimensions; the enlarged `(w + 2·blur_radius, h + 2·blur_radius)`
canvas it allocates is dead code, never composited or returned. -/
theorem add_shadow_effect_preserves_dims (img : Image) (c : RGBA)
    (off : Int × Int) (b : Nat) :
    (add_shadow_effect img c off b).width = img.width ∧
      (add_shadow_effect img c off b).height = img.height :=
  ⟨rfl, rfl⟩

/-- C1 counterexample: on a 10 × 10 input with the default blur radius 4,
the output width is 10, not 10 + 2·4 = 18 as the claim states. -/
theorem add_shadow_effect_not_enlarged :
    ¬ (add_shadow_effect (newImage 10 10 ⟨0, 0, 0, 0⟩) ⟨0, 0, 0, 60⟩
        (2, 2) 4).width = 10 + 2 * 4 := by
  decide

theorem applyCmd_width (img : Image) (c : Cmd) :
    (applyCmd img c).width = img.width := by
  cases c <;> rfl

theorem applyCmd_height (img : Image) (c : Cmd) :
    (applyCmd img c).height = img.height := by
  cases c <;> rfl

theorem foldl_applyCmd_width (cs : List Cmd) (img : Image) :
    (cs.foldl applyCmd img).width = img.width := by
  induction cs generalizing img with
  | nil => rfl
  | cons c cs ih => rw [List.foldl_cons, ih, applyCmd_width]

theorem foldl_applyCmd_height (cs : List Cmd) (img : Image) :
    (cs.foldl applyCmd img).height = img.height := by
  induction cs generalizing img with
  | nil => rfl
  | cons c cs ih => rw [List.foldl_cons, ih, applyCmd_height]

theorem execCmds_width {img : Image} {cs : List Cmd} {out : Image}
    (h : ExecCmds img cs out) : out.width = img.width := by
  induction h with
  | nil => rfl
  | cons img c cs out hv hrest ih => rw [ih, applyCmd_width]

theorem execCmds_height {img : Image} {cs : List Cmd} {out : Image}
    (h : ExecCmds img cs out) : out.height = img.height := by
  induction h with
  | nil => rfl
  | cons img c cs out hv hrest ih => rw [ih, applyCmd_height]

theorem execCmds_deterministic {img : Image} {cs : List Cmd} {o1 o2 : Image}
    (h1 : ExecCmds img cs o1) (h2 : ExecCmds img cs o2) : o1 = o2 := by
  induction h1 with
  | nil => cases h2; rfl
  | cons img c cs out hv hrest ih => cases h2 with
    | cons _ _ _ _ hv2 hrest2 => exact ih hrest2

theorem execCmds_foldl (cs : List Cmd) (img : Image)
    (h : cs.all cmdValid = true) : ExecCmds img cs (cs.foldl applyCmd img) := by
  induction cs generalizing img with
  | nil => exact .nil img
  | cons c cs ih =>
    rw [List.all_cons, Bool.and_eq_true] at h
    exact .cons _ _ _ _ h.1 (ih _ h.2)

theorem all_filterMap_of {α : Type} (l : List α) (f : α → Option Cmd)
    (p : Cmd → Bool) (h : ∀ a c, f a = some c → p c = true) :
    (l.filterMap f).all p = true := by
  rw [List.all_eq_true]
  intro c hc
  rw [List.mem_filterMap] at hc
  obtain ⟨a, _, hf⟩ := hc
  exact h a c hf

theorem bgCmds_valid (size : Nat) : (bgCmds size).all cmdValid = true := by
  simp only [bgCmds, List.all_cons, List.all_nil, cmdValid, Bool.and_true,
    decide_eq_true_eq]
  omega

theorem ringCmds_valid (size : Nat) : (ringCmds size).all cmdValid = true := by
  rw [List.all_eq_true]
  intro c hc
  rw [ringCmds, List.mem_map] at hc
  obtain ⟨i, hi, rfl⟩ := hc
  rw [List.mem_range] at hi
  simp only [cmdValid, decide_eq_true_eq]
  have hi2 : i ≤ 220 * size / 512 := by
    rw [lt_max_iff] at hi
    rcases hi with h1 | h1
    · omega
    · have hdiv : sc 3 size ≤ 220 * size / 512 := by
        unfold sc
        exact Nat.div_le_div_right (by omega)
      unfold sc at h1
      omega
  unfold sc
  omega

theorem anvilCmds_valid (size : Nat) : (anvilCmds size).all cmdValid = true := by
  simp only [anvilCmds, List.all_cons, List.all_nil, cmdValid, Bool.and_true,
    decide_eq_true_eq]
  unfold sc
  constructor <;> [exact_mod_cast Nat.div_le_div_right (by omega);
    exact_mod_cast Nat.div_le_div_right (by omega)]

theorem furnaceCmds_valid (size : Nat) :
    (furnaceCmds size).all cmdValid = true := by
  simp [furnaceCmds, cmdValid]

theorem gradCmds_valid (size : Nat) : (gradCmds size).all cmdValid = true := by
  apply all_filterMap_of
  intro i c h
  simp only at h
  split at h
  next hg =>
    cases h
    simp only [cmdValid, decide_eq_true_eq]
    omega
  next => exact absurd h (by simp)

theorem segmentsOf_valid (pts : List (Int × Int)) (cl : RGBA) (w : Nat) :
    (segmentsOf pts cl w).all cmdValid = true := by
  rw [List.all_eq_true]
  intro c hc
  simp only [segmentsOf, List.mem_map] at hc
  obtain ⟨pq, _, rfl⟩ := hc
  rfl

theorem crackLine_valid (size ypos : Nat) (cl : RGBA) (w : Nat) :
    (crackLine size ypos cl w).all cmdValid = true := by
  unfold crackLine
  split
  · exact segmentsOf_valid _ _ _
  · rfl

theorem crackCmds_valid (size : Nat) : (crackCmds size).all cmdValid = true := by
  simp [crackCmds, List.all_append, crackLine_valid]

theorem mouthCmds_valid (size : Nat) : (mouthCmds size).all cmdValid = true := by
  rw [List.all_eq_true]
  intro c hc
  simp only [mouthCmds, List.mem_cons, List.not_mem_nil, or_false] at hc
  obtain rfl | rfl := hc <;>
    simp only [cmdValid, decide_eq_true_eq] <;> omega

theorem emberCmds_valid (size : Nat) : (emberCmds size).all cmdValid = true := by
  apply all_filterMap_of
  intro t c h
  simp only at h
  split at h
  next hg =>
    cases h
    simp only [cmdValid, decide_eq_true_eq]
    omega
  next => exact absurd h (by simp)

theorem ventCmds_valid (size : Nat) : (ventCmds size).all cmdValid = true := by
  rw [List.all_eq_true]
  intro c hc
  simp only [ventCmds, List.mem_map, List.mem_cons, List.not_mem_nil,
    or_false] at hc
  obtain ⟨x, _, rfl⟩ := hc
  simp only [cmdValid, decide_eq_true_eq]
  omega

theorem coreCmds_valid (size : Nat) : (coreCmds size).all cmdValid = true := by
  rw [List.all_eq_true]
  intro c hc
  simp only [coreCmds, List.mem_cons, List.not_mem_nil, or_false] at hc
  obtain rfl | rfl := hc <;>
    simp only [cmdValid, decide_eq_true_eq] <;> omega

theorem volcanicTrace_valid (size : Nat) :
    (volcanicTrace size).all cmdValid = true := by
  simp [volcanicTrace, List.all_append, bgCmds_valid, ringCmds_valid,
    anvilCmds_valid, furnaceCmds_valid, gradCmds_valid, crackCmds_valid,
    mouthCmds_valid, emberCmds_valid, ventCmds_valid, coreCmds_valid]

theorem rendersIcon_self (size : Nat) :
    RendersIcon size (create_volcanic_icon size) :=
  execCmds_foldl _ _ (volcanicTrace_valid size)

theorem rendersIcon_width {size : Nat} {img : Image}
    (h : RendersIcon size img) : img.width = size :=
  execCmds_width h

theorem rendersIcon_height {size : Nat} {img : Image}
    (h : RendersIcon size img) : img.height = size :=
  execCmds_height h

/-- C4: `create_volcanic_icon` is deterministic: two complete runs at the
same target resolution produce the same image, dimensions and pixels
alike. -/
theorem create_volcanic_icon_deterministic (size : Nat) (img1 img2 : Image)
    (h1 : RendersIcon size img1) (h2 : RendersIcon size img2) :
    img1 = img2 :=
  execCmds_deterministic h1 h2

/-- C4 witness: two runs at resolution 16 yield the same image. -/
theorem create_volcanic_icon_deterministic_witness :
    create_volcanic_icon 16 = create_volcanic_icon 16 :=
  create_volcanic_icon_deterministic 16 _ _ (rendersIcon_self 16)
    (rendersIcon_self 16)

/-- C3 counterexample: at target size 1 the claim's universally quantified
part fails — the background circle's scaled radius computes to
`int(240/512) = 0 ≤ 0`, yet its ellipse is still issued (as a degenerate
zero-extent bounding box), not skipped, so not every primitive with a
non-positive scaled radius or width is skipped. -/
theorem volcanic_degenerate_drawn_at_size_one :
    1 ≤ 1 ∧ (volcanicTrace 1).all cmdNondegenerate = false := by
  constructor
  · decide
  · decide

/-- C3 (amended): for every target size ≥ 1, `create_volcanic_icon`
returns normally — every issued command has a valid bounding box, so a
complete run exists — and the positivity-guarded primitives (the five
gradient ellipses and the ember dots) are only ever issued with strictly
positive radii; the remaining primitives are drawn even when a scaled
dimension is 0, as valid degenerate shapes the library accepts. -/
theorem create_volcanic_icon_runs (size : Nat) (h : 1 ≤ size) :
    (∃ img, RendersIcon size img) ∧
      (gradCmds size ++ emberCmds size).all cmdNondegenerate = true := by
  refine ⟨⟨_, rendersIcon_self size⟩, ?_⟩
  rw [List.all_append, Bool.and_eq_true]
  constructor
  · apply all_filterMap_of
    intro i c hc
    simp only at hc
    split at hc
    next hg =>
      cases hc
      simp only [cmdNondegenerate, decide_eq_true_eq]
      omega
    next => exact absurd hc (by simp)
  · apply all_filterMap_of
    intro t c hc
    simp only at hc
    split at hc
    next hg =>
      cases hc
      simp only [cmdNondegenerate, decide_eq_true_eq]
      omega
    next => exact absurd hc (by simp)

/-- C3 witness: at target size 1 a complete run exists and the guarded
primitives are non-degenerate. -/
theorem create_volcanic_icon_runs_witness :
    (∃ img, RendersIcon 1 img) ∧
      (gradCmds 1 ++ emberCmds 1).all cmdNondegenerate = true :=
  create_volcanic_icon_runs 1 (by decide)

/-- C2: for every configured entry of either script's table, the raster
produced for it (rasterize or render, then the enabled post-processing)
has width and height exactly the requested size.  The shadow step
preserves dimensions (see C1), so this holds for shadowed entries too. -/
theorem configured_sizes_exact (e : IconConfig) (img : Image) :
    (e ∈ vectorConfigs →
      (generate_png_from_svg e.size e.rounded e.shadow).width = e.size ∧
        (generate_png_from_svg e.size e.rounded e.shadow).height = e.size) ∧
    (e ∈ simpleConfigs → RendersIcon e.size img →
      (simplePost e img).width = e.size ∧ (simplePost e img).height = e.size) := by
  constructor
  · intro _
    unfold generate_png_from_svg
    cases hr : e.rounded <;> cases hs : e.shadow <;>
      simp [create_rounded_icon, add_shadow_effect, paste, putalpha,
        gaussianBlur, svg2png, newImage]
  · intro _ hrender
    have hw := rendersIcon_width hrender
    have hh := rendersIcon_height hrender
    unfold simplePost
    cases hr : e.rounded <;>
      simp [create_rounded_icon, paste, putalpha, newImage, hw, hh]

/-- C2 witness: the 32-pixel entry, present in both tables, yields a
32 × 32 raster on both pipelines. -/
theorem configured_sizes_exact_witness :
    ((generate_png_from_svg 32 false false).width = 32 ∧
        (generate_png_from_svg 32 false false).height = 32) ∧
      ((simplePost ⟨32, "32x32.png", false, false⟩
          (create_volcanic_icon 32)).width = 32 ∧
        (simplePost ⟨32, "32x32.png", false, false⟩
          (create_volcanic_icon 32)).height = 32) := by
  have h := configured_sizes_exact ⟨32, "32x32.png", false, false⟩
    (create_volcanic_icon 32)
  exact ⟨h.1 (by decide), h.2 (by decide) (rendersIcon_self 32)⟩

/-- C6: when the SVG source file does not exist, `main` exits with a
non-zero status before writing any PNG output. -/
theorem missing_svg_aborts (env : VecEnv) (h : env.svgExists = false) :
    (vector_main env).exitCode ≠ 0 ∧ (vector_main env).pngsWritten = [] := by
  unfold vector_main
  cases hd : env.depsOk <;> simp [h, hd]

/-- C6 witness: a run with dependencies available but the SVG missing. -/
theorem missing_svg_aborts_witness :
    (vector_main ⟨true, false, ⟨false, false, false, false, 0⟩,
        ⟨false, false⟩⟩).exitCode ≠ 0 ∧
      (vector_main ⟨true, false, ⟨false, false, false, false, 0⟩,
        ⟨false, false⟩⟩).pngsWritten = [] :=
  missing_svg_aborts _ rfl

/-- C7: with the run otherwise healthy, every failure inside ICO or ICNS
packaging is caught (neither packager ever propagates an exception), a
failed packager reports a warning, the run still exits with status 0, and
the ICNS staging directory is deleted exactly when the packaging tool
succeeded (any earlier failure or a non-zero exit leaves it in place). -/
theorem bundle_failures_nonfatal (env : VecEnv) (hd : env.depsOk = true)
    (hs : env.svgExists = true) :
    (vector_main env).exitCode = 0 ∧
      (generate_icns env.icns).raised = false ∧
      (generate_ico 512 512 env.ico).raised = false ∧
      ((generate_icns env.icns).toolSucceeded = false →
        (generate_icns env.icns).warned = true) ∧
      ((generate_ico 512 512 env.ico).written = false →
        (generate_ico 512 512 env.ico).warned = true) ∧
      (generate_icns env.icns).stagingDeleted =
        (generate_icns env.icns).toolSucceeded := by
  obtain ⟨m, o, s, r, rc⟩ := env.icns
  obtain ⟨io, is⟩ := env.ico
  refine ⟨by simp [vector_main, hd, hs], ?_, ?_, ?_, ?_, ?_⟩ <;>
    cases m <;> cases o <;> cases s <;> cases r <;> cases io <;> cases is <;>
      by_cases hrc : rc = 0 <;> simp [generate_icns, generate_ico, hrc]

/-- C7 witness: a healthy run whose `iconutil` exits with status 1. -/
theorem bundle_failures_nonfatal_witness :
    (vector_main ⟨true, true, ⟨false, false, false, false, 1⟩,
        ⟨false, false⟩⟩).exitCode = 0 ∧
      (generate_icns ⟨false, false, false, false, 1⟩).raised = false ∧
      (generate_ico 512 512 ⟨false, false⟩).raised = false ∧
      ((generate_icns ⟨false, false, false, false, 1⟩).toolSucceeded = false →
        (generate_icns ⟨false, false, false, false, 1⟩).warned = true) ∧
      ((generate_ico 512 512 ⟨false, false⟩).written = false →
        (generate_ico 512 512 ⟨false, false⟩).warned = true) ∧
      (generate_icns ⟨false, false, false, false, 1⟩).stagingDeleted =
        (generate_icns ⟨false, false, false, false, 1⟩).toolSucceeded :=
  bundle_failures_nonfatal ⟨true, true, ⟨false, false, false, false, 1⟩,
    ⟨false, false⟩⟩ rfl rfl

/-- C8 (the code evaluated at the failing input): from a 512 × 512 base
image, the happy-path `generate_ico` produces an ICO whose only frame is
16 × 16 — the save call uses `images[0]`, the 16 × 16 resize, and the
encoder ignores every requested size larger than the image being saved —
rather than the seven frames {16, 24, 32, 48, 64, 128, 256} the claim
(and the surrounding code's intent) calls for. -/
theorem generate_ico_single_frame :
    (generate_ico 512 512 ⟨false, false⟩).frames = [(16, 16)] := by
  decide

theorem create_rounded_icon_px (img : Image) (p x y : Nat) :
    (create_rounded_icon img p).px x y =
      ⟨(croppedPx img x y).r, (croppedPx img x y).g, (croppedPx img x y).b,
        roundedMask img.width (img.width * p / 100) x y⟩ := by
  show (putalpha (paste (newImage img.width img.width ⟨0, 0, 0, 0⟩) img 0 0 none)
      (roundedMask img.width (img.width * p / 100))).px x y = _
  simp only [putalpha, paste, newImage, croppedPx]
  by_cases h : x < img.width ∧ y < img.width ∧ y < img.height
  · rw [if_pos (by refine ⟨h.1, h.2.1, ?_, ?_, ?_, ?_⟩ <;> omega),
      if_pos h]
    simp
  · rw [if_neg (by intro hc; exact h ⟨hc.1, hc.2.1, by omega⟩), if_neg h]

/-- C5: `create_rounded_icon` is idempotent: for every square RGBA image
and radius percentage, a second application reproduces the first's output
exactly (same dimensions, same color bands, and the same alpha mask,
because `putalpha` overwrites — rather than intersects — any existing
alpha). -/
theorem create_rounded_icon_idempotent (img : Image) (p : Nat)
    (hsq : img.height = img.width) :
    create_rounded_icon (create_rounded_icon img p) p =
      create_rounded_icon img p := by
  have hGw : (create_rounded_icon img p).width = img.width := rfl
  have hGh : (create_rounded_icon img p).height = img.width := rfl
  have hB : ∀ x y, croppedPx (create_rounded_icon img p) x y =
      (if x < img.width ∧ y < img.width then
        (⟨(croppedPx img x y).r, (croppedPx img x y).g, (croppedPx img x y).b,
          roundedMask img.width (img.width * p / 100) x y⟩ : RGBA)
      else ⟨0, 0, 0, 0⟩) := by
    intro x y
    unfold croppedPx
    rw [hGw, hGh, create_rounded_icon_px img p x y]
    by_cases h : x < img.width ∧ y < img.width
    · rw [if_pos ⟨h.1, h.2, h.2⟩, if_pos h]
      rfl
    · rw [if_neg (by intro hc; exact h ⟨hc.1, hc.2.1⟩), if_neg h]
  refine Image.ext rfl rfl ?_
  funext x y
  rw [create_rounded_icon_px, create_rounded_icon_px, hGw, hB]
  by_cases h : x < img.width ∧ y < img.width
  · rw [if_pos h]
  · rw [if_neg h]
    unfold croppedPx
    rw [if_neg (by intro hc; exact h ⟨hc.1, hc.2.1⟩)]

/-- C5 witness: the second application on a concrete square image
reproduces the first. -/
theorem create_rounded_icon_idempotent_witness :
    create_rounded_icon (create_rounded_icon (newImage 8 8 ⟨9, 8, 7, 6⟩) 20) 20 =
      create_rounded_icon (newImage 8 8 ⟨9, 8, 7, 6⟩) 20 :=
  create_rounded_icon_idempotent (newImage 8 8 ⟨9, 8, 7, 6⟩) 20 rfl

/-- C9: `create_rounded_icon` takes its output geometry from the input's
width alone: the result is always `width × width`, and within that square
the color bands are the input's pixels where the input overlaps it and
transparent black where it does not (cropping a taller input, padding a
shorter one), with the alpha band replaced by the rounded mask; the
input's height enters only through that overlap test. -/
theorem create_rounded_icon_from_width (img : Image) (p : Nat) :
    (create_rounded_icon img p).width = img.width ∧
      (create_rounded_icon img p).height = img.width ∧
      ∀ x y, x < img.width → y < img.width →
        (create_rounded_icon img p).px x y =
          ⟨(croppedPx img x y).r, (croppedPx img x y).g, (croppedPx img x y).b,
            roundedMask img.width (img.width * p / 100) x y⟩ :=
  ⟨rfl, rfl, fun x y _ _ => create_rounded_icon_px img p x y⟩

/-- C9 witness: on the concrete 3 × 2 non-square image the result is
3 × 3 and the padded pixel `(1, 2)` (below the input) is characterized. -/
theorem create_rounded_icon_from_width_witness :
    (create_rounded_icon probeImg 20).width = probeImg.width ∧
      (create_rounded_icon probeImg 20).height = probeImg.width ∧
      (create_rounded_icon probeImg 20).px 1 2 =
        ⟨(croppedPx probeImg 1 2).r, (croppedPx probeImg 1 2).g,
          (croppedPx probeImg 1 2).b,
          roundedMask probeImg.width (probeImg.width * 20 / 100) 1 2⟩ :=
  have h := create_rounded_icon_from_width probeImg 20
  ⟨h.1, h.2.1, h.2.2 1 2 (by decide) (by decide)⟩

/-- C10: both post-processing filters are non-destructive: on the buffer
store, neither `create_rounded_icon` nor `add_shadow_effect` modifies the
buffer its argument reference points to (its pixels and alpha are exactly
as before the call), and each returns a freshly allocated reference, not a
pre-existing one. -/
theorem post_filters_nondestructive (σ : Store) (ref p blur : Nat)
    (c : RGBA) (off : Int × Int) (h : ref < σ.length) :
    ((create_rounded_icon_st σ ref p).1[ref]? = σ[ref]? ∧
      σ.length ≤ (create_rounded_icon_st σ ref p).2) ∧
    ((add_shadow_effect_st σ ref c off blur).1[ref]? = σ[ref]? ∧
      σ.length ≤ (add_shadow_effect_st σ ref c off blur).2) := by
  constructor
  · constructor
    · show (((σ ++ _).set σ.length _).set σ.length _)[ref]? = σ[ref]?
      rw [List.getElem?_set_ne (by omega), List.getElem?_set_ne (by omega),
        List.getElem?_append_left h]
    · exact le_refl _
  · constructor
    · simp only [add_shadow_effect_st, storeNew, storeBlur, storePaste,
        storePutalpha]
      rw [List.getElem?_set_ne (by simp; omega),
        List.getElem?_set_ne (by simp; omega),
        List.getElem?_append_left (by simp; omega),
        List.getElem?_append_left (by simp; omega),
        List.getElem?_append_left (by simp; omega),
        List.getElem?_append_left h]
    · simp only [add_shadow_effect_st, storeNew, storeBlur, storePaste,
        storePutalpha, List.length_append, List.length_cons, List.length_nil]
      omega

/-- C10 witness: on a one-buffer store both filters leave buffer 0
untouched and allocate fresh result references. -/
theorem post_filters_nondestructive_witness :
    (((create_rounded_icon_st [probeImg] 0 20).1[0]? = [probeImg][0]? ∧
      List.length [probeImg] ≤ (create_rounded_icon_st [probeImg] 0 20).2) ∧
    ((add_shadow_effect_st [probeImg] 0 ⟨0, 0, 0, 60⟩ (2, 2) 4).1[0]? =
        [probeImg][0]? ∧
      List.length [probeImg] ≤
        (add_shadow_effect_st [probeImg] 0 ⟨0, 0, 0, 60⟩ (2, 2) 4).2)) :=
  post_filters_nondestructive [probeImg] 0 20 4 ⟨0, 0, 0, 60⟩ (2, 2)
    (by decide)

end CodeFurnace
